import Mathlib

/-!
# Verification of the `hq` repository/service/cache layer

Shallow embedding of the generic repository / service / in-process cache
stack of the `hq` application (Flask + SQLAlchemy CRUD console for
bauxite-mining reference data), together with proofs of the testable
properties stated in its design document.

Embedded directly from the sources:
* `app/lib/repository/mixins.py` — `RepositoryMixin.get_or_create`,
  `SearchMixin.search`, `CacheMixin` (`_cache_key`, `_cache_valid`,
  `cached_query`, `clear_cache`);
* `app/product/repository/{product_category,product_subtype,mine}_repository.py`
  — `*_with_validation`, `bulk_create_categories`, delete-integrity hooks;
* `app/product/services/{product_category,product_subtype,mine}_service.py`
  — CRUD operations, cache wrappers (`_cached_entity`, `_cached_simple`),
  `_after_change` cache purging, `_validate_relationships`.

The library base classes `BaseRepository`, `BaseService`, the decorators
module, `ValidationUtils` and `StringUtils` are referenced by the sources
but their files are not part of the repository snapshot; where needed they
are modelled from the design document (each such definition carries a
`Modelled from the spec:` doc comment).

Machine conventions: time is an `Int` (seconds); Python dictionaries are
association lists; Python exceptions are `Except RepoError`; Python
truthiness of cached values is made explicit through the `PyVal` type.
-/

/-- Python's `in` on strings at the `List Char` level: does the second list
occur as a contiguous sublist of the first? -/
def hasSub (pat : List Char) : List Char → Bool
  | [] => pat.isEmpty
  | c :: rest => pat.isPrefixOf (c :: rest) || hasSub pat rest

/-- `pat in s` for Python strings (substring containment). -/
def strContains (s pat : String) : Bool :=
  hasSub pat.toList s.toList

/-- Dynamic Python value stored in caches, envelopes and DTO dictionaries. -/
inductive PyVal where
  | vNone
  | vBool (b : Bool)
  | vInt (n : Int)
  | vStr (s : String)
  | vList (l : List PyVal)
  | vDict (l : List (String × PyVal))
deriving Repr

/-- Python truthiness (`bool(x)`) for the values of `PyVal`: `None`, `False`,
`0`, `""`, `[]` and `{}` are falsy, everything else is truthy. -/
def PyVal.truthy : PyVal → Bool
  | .vNone => false
  | .vBool b => b
  | .vInt n => n != 0
  | .vStr s => !s.isEmpty
  | .vList l => !l.isEmpty
  | .vDict l => !l.isEmpty

/-- Lookup in a Python-dict-as-association-list (first binding wins). -/
def dictGet (d : List (String × PyVal)) (k : String) : PyVal :=
  match d.find? (fun kv => kv.1 == k) with
  | some kv => kv.2
  | none => .vNone

/-! ## `CacheMixin` (embedded from `app/lib/repository/mixins.py`) -/

/-- One cache slot: `{"data": ..., "ts": ...}` as written by
`CacheMixin.cached_query`. -/
structure CacheEntry where
  data : PyVal
  ts : Int
deriving Repr

/-- The mixin's `_cache` dictionary plus its fixed `_cache_timeout`. -/
structure MixinCache where
  timeout : Int := 300
  entries : List (String × CacheEntry) := []
deriving Repr

/-- `CacheMixin._cache_key(method, *args, **kwargs)`: joins the model-class
name, the method name, the stringified positional arguments and the
`k=v`-rendered keyword arguments (sorted by Python's tuple order on
`kwargs.items()`, which for the distinct keys of a kwargs dict is the order
of the key strings) with `":"`. -/
def cache_key (modelName method : String) (args : List String)
    (kwargs : List (String × String)) : String :=
  String.intercalate ":"
    ([modelName, method] ++ args ++
      (List.insertionSort (fun a b : String × String => a.1 ≤ b.1) kwargs).map
        (fun kv => kv.1 ++ "=" ++ kv.2))

/-- `CacheMixin._cache_valid(entry)`: an entry is valid when it exists and
`now - entry["ts"] < self._cache_timeout` (strict). -/
def cache_valid (c : MixinCache) (now : Int) : Option CacheEntry → Bool
  | none => false
  | some e => now - e.ts < c.timeout

/-- `CacheMixin.cached_query(method, func, *args, **kwargs)` for an already
composed key.  The fetch function is represented by the value it would
return; the third component of the result records whether it was invoked. -/
def cached_query (c : MixinCache) (now : Int) (key : String) (fetched : PyVal) :
    PyVal × MixinCache × Bool :=
  let entry := (c.entries.find? (fun kv => kv.1 == key)).map (fun kv => kv.2)
  if cache_valid c now entry then
    (match entry with | some e => e.data | none => .vNone, c, false)
  else
    (fetched,
      { c with entries :=
          (key, ⟨fetched, now⟩) :: c.entries.filter (fun kv => kv.1 != key) },
      true)

/-- `CacheMixin.clear_cache(pattern)`: drop every key containing *pattern*
as a substring; with no pattern, drop everything. -/
def mixin_clear_cache (c : MixinCache) : Option String → MixinCache
  | none => { c with entries := [] }
  | some pat => { c with entries := c.entries.filter (fun kv => !strContains kv.1 pat) }

/-! ## Generic model rows (for `SearchMixin.search` and
`RepositoryMixin.get_or_create` from `app/lib/repository/mixins.py`) -/

/-- A persisted row of some model: the auto-assigned primary key plus the
attribute dictionary (string-valued, as compared by `filter_by`/`ilike`). -/
structure GRow where
  rid : Nat
  fields : List (String × String)
deriving Repr, DecidableEq

/-- `getattr(row, f)` for string columns (absent attribute reads as `""`). -/
def rowGet (r : GRow) (f : String) : String :=
  match r.fields.find? (fun kv => kv.1 == f) with
  | some kv => kv.2
  | none => ""

/-- A generic model-class table: the declared attribute names (deciding
`hasattr(self.model_class, f)`) and the stored rows in insertion order. -/
structure GStore where
  attrs : List String
  rows : List GRow
  nextId : Nat
deriving Repr

/-- Lower-casing via the character list (computable by the kernel, unlike
`String.toLower`, whose `mapAux` recursion is well-founded). -/
def lowerStr (s : String) : String :=
  String.mk (s.toList.map Char.toLower)

/-- Upper-casing via the character list (kernel-computable rendering of
`str.upper()`). -/
def upperStr (s : String) : String :=
  String.mk (s.toList.map Char.toUpper)

/-- Python `str.strip()` via the character list. -/
def pyStrip (s : String) : String :=
  String.mk
    (((s.toList.dropWhile Char.isWhitespace).reverse.dropWhile Char.isWhitespace).reverse)

/-- Whitespace-separated words of a character list (accumulator holds the
current word reversed). -/
def wordsAux : List Char → List Char → List (List Char)
  | [], cur => if cur.isEmpty then [] else [cur.reverse]
  | c :: rest, cur =>
      if c.isWhitespace then
        if cur.isEmpty then wordsAux rest [] else cur.reverse :: wordsAux rest []
      else wordsAux rest (c :: cur)

/-- `column.ilike(f"%{phrase}%")`: case-insensitive substring containment. -/
def ilikeContains (value phrase : String) : Bool :=
  strContains (lowerStr value) (lowerStr phrase)

/-- `SearchMixin.search(phrase, fields)`: `[]` for an empty phrase or empty
field list; otherwise build one `ilike` condition per listed field that is
an attribute of the model, return `[]` if no condition was built, and
otherwise the rows satisfying the `or_` of the conditions. -/
def search (g : GStore) (phrase : String) (fields : List String) : List GRow :=
  if phrase.isEmpty || fields.isEmpty then []
  else if (fields.filter (fun f => g.attrs.contains f)).isEmpty then []
  else g.rows.filter (fun r =>
    (fields.filter (fun f => g.attrs.contains f)).any
      (fun f => ilikeContains (rowGet r f) phrase))

/-- `filter_by(**lookup)` match: every lookup pair agrees with the row. -/
def rowMatches (r : GRow) (lookup : List (String × String)) : Bool :=
  lookup.all (fun kv => rowGet r kv.1 == kv.2)

/-- `{**lookup, **defaults}`: keys keep `lookup`'s insertion order (values
overridden by `defaults` where present), then the new keys of `defaults`. -/
def mergeKwargs (lookup defaults : List (String × String)) : List (String × String) :=
  lookup.map (fun kv =>
    (kv.1, match defaults.find? (fun dv => dv.1 == kv.1) with
           | some dv => dv.2
           | none => kv.2)) ++
  defaults.filter (fun dv => !(lookup.any (fun kv => kv.1 == dv.1)))

/-- Modelled from the spec: `BaseRepository.create` (file
`app/lib/repository/base.py` is absent from the snapshot); spec §4.2:
"`create(**fields) -> entity`: inserts a new row" — insert a fresh row
holding the keyword arguments, primary key from the id counter. -/
def gCreate (g : GStore) (kwargs : List (String × String)) : GRow × GStore :=
  let r : GRow := ⟨g.nextId, kwargs⟩
  (r, { g with rows := g.rows ++ [r], nextId := g.nextId + 1 })

/-- `RepositoryMixin.get_or_create(defaults, **lookup)`: return the first
row matching *lookup* with `created = False`, or insert a row built from
`{**lookup, **defaults}` and return it with `created = True`. -/
def get_or_create (g : GStore) (defaults lookup : List (String × String)) :
    GRow × Bool × GStore :=
  match g.rows.find? (fun r => rowMatches r lookup) with
  | some r => (r, false, g)
  | none =>
      let rg := gCreate g (mergeKwargs lookup defaults)
      (rg.1, true, rg.2)

/-! ## Domain entities and store (`app/models/product.py`) -/

/-- `ProductCategory` row: integer primary key and unique name. -/
structure ProductCategory where
  id : Nat
  name : String
deriving Repr, DecidableEq

/-- `Mine` row: integer primary key and unique name. -/
structure Mine where
  id : Nat
  name : String
deriving Repr, DecidableEq

/-- `ProductSubtype` row: primary key, name, and foreign keys to the
category and the mine. -/
structure ProductSubtype where
  id : Nat
  name : String
  category_id : Nat
  mine_id : Nat
deriving Repr, DecidableEq

/-- The backing store: the three tables, one shared id sequence, and a
fault flag under which every query/statement raises (used to model the
backing store failing, per spec §4.3 `safe_repository_operation`). -/
structure Store where
  categories : List ProductCategory
  mines : List Mine
  subtypes : List ProductSubtype
  nextId : Nat
  fault : Bool
deriving Repr

/-- Typed repository errors (spec §7 error taxonomy), plus the raw
store-level fault. -/
inductive RepoError where
  | validationE (msg : String)
  | duplicate (model field value : String)
  | integrity (msg constraint : String)
  | storeFault (msg : String)
deriving Repr, DecidableEq

/-- `str(exc)` for the typed errors. -/
def repoErrMsg : RepoError → String
  | .validationE m => m
  | .duplicate model field value => model ++ " with " ++ field ++ "=" ++ value ++ " already exists"
  | .integrity m _ => m
  | .storeFault m => m

def cat_get_by_id (s : Store) (id : Nat) : Option ProductCategory :=
  s.categories.find? (fun c => c.id == id)

def mine_get_by_id (s : Store) (id : Nat) : Option Mine :=
  s.mines.find? (fun m => m.id == id)

def subtype_get_by_id (s : Store) (id : Nat) : Option ProductSubtype :=
  s.subtypes.find? (fun st => st.id == id)

/-- `ProductCategoryRepository.name_exists(name, exclude_id=...)`. -/
def cat_name_exists (s : Store) (name : String) (excludeId : Option Nat) : Bool :=
  s.categories.any (fun c =>
    c.name == name &&
    (match excludeId with | some i => c.id != i | none => true))

/-- `ProductSubtypeRepository.combination_exists(name, category_id, mine_id,
exclude_id=...)`: another row with the same compound key. -/
def combination_exists (s : Store) (name : String) (cid mid : Nat)
    (excludeId : Option Nat) : Bool :=
  s.subtypes.any (fun st =>
    st.name == name && st.category_id == cid && st.mine_id == mid &&
    (match excludeId with | some i => st.id != i | none => true))

/-- Modelled from the spec: `BaseRepository.create` for categories
(`app/lib/repository/base.py` absent); spec §4.2 "inserts a new row";
raises when the backing store is faulted. -/
def cat_create (s : Store) (name : String) : Except RepoError (ProductCategory × Store) :=
  if s.fault then .error (.storeFault "database error")
  else
    let c : ProductCategory := ⟨s.nextId, name⟩
    .ok (c, { s with categories := s.categories ++ [c], nextId := s.nextId + 1 })

/-- `ProductCategoryRepository.create_with_validation(name)`: strip the
name, raise `DuplicateError` if it is taken, else insert. -/
def cat_create_with_validation (s : Store) (name : String) :
    Except RepoError (ProductCategory × Store) :=
  let n := pyStrip name
  if cat_name_exists s n none then .error (.duplicate "ProductCategory" "name" n)
  else cat_create s n

/-- Modelled from the spec: `BaseRepository.delete` for categories
(`app/lib/repository/base.py` absent); spec §4.2 "`delete(id) -> boolean`:
invokes `before_delete` hook (may raise an integrity error to abort), then
removes the row".  The registered `before_delete` hook is
`ProductCategoryRepository._check_subtypes_on_delete` (embedded inline):
raise `IntegrityError` when the category still owns sub-types. -/
def cat_delete (s : Store) (id : Nat) : Except RepoError (Bool × Store) :=
  if s.fault then .error (.storeFault "database error")
  else
    match cat_get_by_id s id with
    | none => .ok (false, s)
    | some c =>
        if !(s.subtypes.filter (fun st => st.category_id == c.id)).isEmpty then
          .error (.integrity "Cannot delete a category that still has sub-types" "fk_subtypes")
        else
          .ok (true, { s with categories := s.categories.filter (fun c2 => c2.id != id) })

/-- `ProductCategoryRepository.delete_with_validation(category_id)`. -/
def cat_delete_with_validation (s : Store) (id : Nat) : Except RepoError (Bool × Store) :=
  match cat_get_by_id s id with
  | none => .ok (false, s)
  | some _ => cat_delete s id

/-- Modelled from the spec: `BaseRepository.create` for subtypes
(`app/lib/repository/base.py` absent); spec §4.2 "inserts a new row". -/
def subtype_create (s : Store) (name : String) (cid mid : Nat) :
    Except RepoError (ProductSubtype × Store) :=
  if s.fault then .error (.storeFault "database error")
  else
    let row : ProductSubtype := ⟨s.nextId, name, cid, mid⟩
    .ok (row, { s with subtypes := s.subtypes ++ [row], nextId := s.nextId + 1 })

/-- `ProductSubtypeRepository.create_with_validation(name, category_id,
mine_id)`: strip, raise `DuplicateError` on an existing compound key, else
insert. -/
def subtype_create_with_validation (s : Store) (name : String) (cid mid : Nat) :
    Except RepoError (ProductSubtype × Store) :=
  let n := pyStrip name
  if combination_exists s n cid mid none then
    .error (.duplicate "ProductSubtype" "name+category+mine" n)
  else subtype_create s n cid mid

/-- Modelled from the spec: `BaseRepository.update` for subtypes
(`app/lib/repository/base.py` absent); spec §4.2 "loads, mutates matching
attributes, persists". -/
def subtype_update (s : Store) (id : Nat) (name : String) (cid mid : Nat) :
    Except RepoError (Option ProductSubtype × Store) :=
  if s.fault then .error (.storeFault "database error")
  else
    match subtype_get_by_id s id with
    | none => .ok (none, s)
    | some _ =>
        let row : ProductSubtype := ⟨id, name, cid, mid⟩
        .ok (some row,
          { s with subtypes := s.subtypes.map (fun st => if st.id == id then row else st) })

/-- `ProductSubtypeRepository.update_with_validation`. -/
def subtype_update_with_validation (s : Store) (id : Nat) (name : String) (cid mid : Nat) :
    Except RepoError (Option ProductSubtype × Store) :=
  match subtype_get_by_id s id with
  | none => .ok (none, s)
  | some _ =>
      let n := pyStrip name
      if combination_exists s n cid mid (some id) then
        .error (.duplicate "ProductSubtype" "name+category+mine" n)
      else subtype_update s id n cid mid

/-- Modelled from the spec: `BaseRepository.delete` for subtypes; the
registered `before_delete` hook `_validate_delete` is a no-op (src). -/
def subtype_delete (s : Store) (id : Nat) : Except RepoError (Bool × Store) :=
  if s.fault then .error (.storeFault "database error")
  else
    match subtype_get_by_id s id with
    | none => .ok (false, s)
    | some _ => .ok (true, { s with subtypes := s.subtypes.filter (fun st => st.id != id) })

/-- `ProductSubtypeRepository.delete_with_validation(subtype_id)`. -/
def subtype_delete_with_validation (s : Store) (id : Nat) : Except RepoError (Bool × Store) :=
  match subtype_get_by_id s id with
  | none => .ok (false, s)
  | some _ => subtype_delete s id

/-- `ProductCategoryRepository.bulk_create_categories` validation loop:
walk the payload in order; an empty stripped name raises `ValidationError`,
a taken name raises `DuplicateError`; nothing is inserted while checking. -/
def bulk_check_categories (s : Store) : List String → Option RepoError
  | [] => none
  | name :: rest =>
      let n := pyStrip name
      if n.isEmpty then some (.validationE "name is required")
      else if cat_name_exists s n none then some (.duplicate "ProductCategory" "name" n)
      else bulk_check_categories s rest

/-- Modelled from the spec: `BaseRepository.bulk_create`
(`app/lib/repository/base.py` absent); spec §4.2 "validates all items
before inserting any" — the insertion stage, inserting every stripped
payload row. -/
def bulk_insert_categories (s : Store) : List String → List ProductCategory × Store
  | [] => ([], s)
  | n :: rest =>
      let c : ProductCategory := ⟨s.nextId, pyStrip n⟩
      let s2 := { s with categories := s.categories ++ [c], nextId := s.nextId + 1 }
      let (cs, s3) := bulk_insert_categories s2 rest
      (c :: cs, s3)

/-- `ProductCategoryRepository.bulk_create_categories(payload)`: validate
every item against the store, then insert all of them. -/
def bulk_create_categories_repo (s : Store) (payload : List String) :
    Except RepoError (List ProductCategory × Store) :=
  if s.fault then .error (.storeFault "database error")
  else
    match bulk_check_categories s payload with
    | some e => .error e
    | none => .ok (bulk_insert_categories s payload)

/-! ## Validation and string utilities (service layer) -/

/-- Characters admitted by the name rule's pattern
`^[A-Za-z0-9\s\-_À-ÿ]+$` (rules declared in the services' `_rules`). -/
def nameCharAllowed (c : Char) : Bool :=
  c.isAlpha || c.isDigit || c.isWhitespace || c == '-' || c == '_' ||
  (0xC0 ≤ c.toNat && c.toNat ≤ 0xFF)

/-- Modelled from the spec: `ValidationUtils.validate`
(`app/lib/utils/validators.py` absent) applied to the `name` field rule of
the services' `_rules` (string, required, `min_length` 3, `max_length`
100, pattern with human-readable pattern name); spec §4.3/§7: per-field
rules, errors collected exhaustively. -/
def validate_name (name : String) : List String :=
  if name.isEmpty then ["name is required"]
  else
    (if name.length < 3 then ["name must be at least 3 characters long"] else []) ++
    (if name.length > 100 then ["name must be at most 100 characters long"] else []) ++
    (if !(name.toList.all nameCharAllowed) then
      ["name may contain only letters, numbers, spaces, - and _"] else [])

/-- Modelled from the spec: `ValidationUtils.validate` applied to an
integer id field rule (`integer, required, min_value 1`) of
`ProductSubtypeService._rules`. -/
def validate_id_field (field : String) (v : Nat) : List String :=
  if v < 1 then [field ++ " must be at least 1"] else []

/-- Modelled from the spec: `StringUtils.clean_whitespace`
(`app/lib/utils/helpers.py` absent) — collapse whitespace runs to single
spaces and strip the ends. -/
def clean_whitespace (s : String) : String :=
  String.intercalate " " ((wordsAux s.toList []).map String.mk)

/-! ## Result envelope and service base (spec §4.3) -/

/-- Modelled from the spec: the uniform result envelope built by
`BaseService` (`app/lib/services/base.py` absent); spec §4.3:
`{success, message, data, errors, error_code, metadata}`. -/
structure Envelope where
  success : Bool
  message : String
  data : PyVal
  errors : Option (List String)
  error_code : Option String
  metadata : List (String × PyVal)
deriving Repr

/-- Modelled from the spec: the `ok(message, data, metadata)` envelope
constructor (spec §4.3). -/
def ok_env (message : String) (data : PyVal) (metadata : List (String × PyVal)) : Envelope :=
  ⟨true, message, data, none, none, metadata⟩

/-- Modelled from the spec: the `error(message, errors, error_code)`
envelope constructor (spec §4.3). -/
def error_env (message : String) (errors : Option (List String))
    (error_code : Option String) : Envelope :=
  ⟨false, message, .vNone, errors, error_code, []⟩

/-- Modelled from the spec: the `validation_error(errors)` envelope
constructor (spec §4.3). -/
def validation_error (errors : List String) : Envelope :=
  ⟨false, "Validation failed", .vNone, some errors, some "VALIDATION_ERROR", []⟩

/-- Operation-specific error code attached by `safe_repository_operation`. -/
def opCode (name : String) : String := upperStr name ++ "_FAILED"

/-- Modelled from the spec: `BaseService.safe_repository_operation(name,
fn)` (`app/lib/services/base.py` absent); spec §4.3: run the operation; on
success return its envelope (and its store); on any raised error return a
generic error envelope tagged with an operation-specific code, leaving the
store as it was before the operation. -/
def safe_repository_operation (name : String)
    (r : Except RepoError (Envelope × Store)) (s0 : Store) : Envelope × Store :=
  match r with
  | .ok es => es
  | .error e =>
      (error_env ("Operation " ++ name ++ " failed") (some [repoErrMsg e]) (some (opCode name)), s0)

/-! ## Service-level cache (spec §4.1, `_cache_get` / `_cache_set` /
`clear_cache` used by the services) -/

/-- One service cache slot: value, write timestamp and per-key TTL. -/
structure SvcEntry where
  data : PyVal
  ts : Int
  ttl : Int
deriving Repr

/-- Modelled from the spec: the process-local cache behind the services'
`_cache_get`/`_cache_set` (`app/lib/services/base.py` absent); spec §4.1:
a mapping from composite string keys to (value, timestamp) pairs with
TTL-based validity. -/
structure SvcCache where
  entries : List (String × SvcEntry)
deriving Repr

/-- Modelled from the spec: `_cache_get(key)`; spec §4.1 `get(key)`:
"returns the cached value if an entry exists and `now - entry.timestamp <
ttl`; otherwise behaves as absent". -/
def svc_cache_get (c : SvcCache) (now : Int) (key : String) : Option PyVal :=
  match c.entries.find? (fun kv => kv.1 == key) with
  | some kv => if now - kv.2.ts < kv.2.ttl then some kv.2.data else none
  | none => none

/-- Modelled from the spec: `_cache_set(key, value, ttl)`; spec §4.1
`put`: "stores value with current timestamp; overwrites any prior entry
for that key". -/
def svc_cache_set (c : SvcCache) (now : Int) (key : String) (data : PyVal) (ttl : Int) : SvcCache :=
  ⟨(key, ⟨data, now, ttl⟩) :: c.entries.filter (fun kv => kv.1 != key)⟩

/-- Modelled from the spec: the services' `clear_cache(pattern)`; spec
§4.1 `invalidate(pattern)`: "removes all keys containing the given
substring" (the same behaviour as `CacheMixin.clear_cache` in src). -/
def svc_clear_cache (c : SvcCache) (pat : String) : SvcCache :=
  ⟨c.entries.filter (fun kv => !strContains kv.1 pat)⟩

/-- Python f-string rendering of the dynamic values that reach cache-key
interpolation (ints and `None`). -/
def pyFmt : PyVal → String
  | .vNone => "None"
  | .vBool b => if b then "True" else "False"
  | .vInt n => toString n
  | .vStr s => s
  | .vList _ => "<list>"
  | .vDict _ => "<dict>"

/-- Combined service state: backing store plus the in-process cache (one
shared cache; each Python service instance actually owns a private one,
which only makes cross-service invalidation even weaker than proved
here). -/
structure SvcState where
  store : Store
  cache : SvcCache
deriving Repr

/-! ## DTO helpers (src `_dto` of the services) -/

/-- `ProductCategoryService._dto`. -/
def cat_dto (c : ProductCategory) : PyVal :=
  .vDict [("id", .vInt c.id), ("name", .vStr c.name),
          ("created_at", .vNone), ("updated_at", .vNone)]

/-- `MineService._dto`. -/
def mine_dto (m : Mine) : PyVal :=
  .vDict [("id", .vInt m.id), ("name", .vStr m.name),
          ("created_at", .vNone), ("updated_at", .vNone)]

/-- `ProductSubtypeService._dto`. -/
def subtype_dto (s : Store) (st : ProductSubtype) : PyVal :=
  .vDict [("id", .vInt st.id), ("name", .vStr st.name),
          ("category_id", .vInt st.category_id),
          ("category_name",
            match cat_get_by_id s st.category_id with
            | some c => .vStr c.name | none => .vNone),
          ("mine_id", .vInt st.mine_id),
          ("mine_name",
            match mine_get_by_id s st.mine_id with
            | some m => .vStr m.name | none => .vNone),
          ("created_at", .vNone), ("updated_at", .vNone)]

/-! ## Service cache wrappers (src `_cached_entity`, `_cached_simple`) -/

/-- `_cached_simple(cache_key, fetch_fn, success_msg, cache_ttl)` as
written in the category/subtype services: the walrus `if cached :=
self._cache_get(cache_key):` treats a falsy cached value like a miss.
`fetched` stands for the outcome of invoking the fetch function — its
value, or the error it raises.  `fetch_fn()` is called with no handler,
so a raised error propagates out of the wrapper (the `Except` on the
result); the `Bool` records whether the fetch function was invoked. -/
def cached_simple (st : SvcState) (now : Int) (key msg : String) (ttl : Int)
    (fetched : Except RepoError PyVal) :
    Except RepoError (Envelope × SvcState) × Bool :=
  match svc_cache_get st.cache now key with
  | some v =>
      if v.truthy then (.ok (ok_env msg v [], st), false)
      else
        match fetched with
        | .error e => (.error e, true)
        | .ok d =>
            (.ok (ok_env msg d [],
              { st with cache := svc_cache_set st.cache now key d ttl }), true)
  | none =>
      match fetched with
      | .error e => (.error e, true)
      | .ok d =>
          (.ok (ok_env msg d [],
            { st with cache := svc_cache_set st.cache now key d ttl }), true)

/-- `_cached_entity(cache_key, fetch_fn, not_found_msg, error_code,
cache_ttl)` as written in the category/subtype services (same walrus
truthiness test; a `None` fetch result yields the not-found error
envelope and nothing is stored).  As in `_cached_simple`, `fetch_fn()`
runs with no handler, so an error it raises propagates out of the
wrapper; the `Bool` records whether it was invoked. -/
def cached_entity (st : SvcState) (now : Int) (key notFoundMsg errorCode : String)
    (ttl : Int) (fetched : Except RepoError PyVal) :
    Except RepoError (Envelope × SvcState) × Bool :=
  match svc_cache_get st.cache now key with
  | some v =>
      if v.truthy then
        (.ok (ok_env (notFoundMsg.replace " not found" "") v [], st), false)
      else
        match fetched with
        | .error e => (.error e, true)
        | .ok .vNone => (.ok (error_env notFoundMsg none (some errorCode), st), true)
        | .ok d =>
            (.ok (ok_env (notFoundMsg.replace " not found" "") d [],
              { st with cache := svc_cache_set st.cache now key d ttl }), true)
  | none =>
      match fetched with
      | .error e => (.error e, true)
      | .ok .vNone => (.ok (error_env notFoundMsg none (some errorCode), st), true)
      | .ok d =>
          (.ok (ok_env (notFoundMsg.replace " not found" "") d [],
            { st with cache := svc_cache_set st.cache now key d ttl }), true)

/-! ## Category service (src `product_category_service.py`) -/

/-- `ProductCategoryService._after_change(result)`: on a successful
result, clear the cache for `categories_select`, `category_stats`,
`category:{id}` and `category_subtypes:{id}`. -/
def cat_after_change (env : Envelope) (c : SvcCache) : SvcCache :=
  if !env.success then c
  else
    let catId := dictGet env.metadata "category_id"
    ["categories_select", "category_stats",
     "category:" ++ pyFmt catId,
     "category_subtypes:" ++ pyFmt catId].foldl svc_clear_cache c

/-- Body of `ProductCategoryService.create_category` (the `op()` closure):
field validation, whitespace cleaning, repository create. -/
def create_category_op (s : Store) (name : String) : Except RepoError (Envelope × Store) :=
  let errs := validate_name name
  if !errs.isEmpty then .ok (validation_error errs, s)
  else
    let clean := clean_whitespace name
    match cat_create_with_validation s clean with
    | .error e => .error e
    | .ok (cat, s2) =>
        .ok (ok_env ("Category " ++ clean ++ " created") (cat_dto cat)
              [("category_id", .vInt cat.id)], s2)

/-- `ProductCategoryService.create_category(name)`: the op wrapped in
`safe_repository_operation`, then the registered `after_create` hook
(`_after_change`) runs on the result (hook dispatch modelled from spec
§4.4; `app/lib/services/base.py` absent). -/
def create_category (st : SvcState) (name : String) : Envelope × SvcState :=
  let r := safe_repository_operation "create_category"
    (create_category_op st.store name) st.store
  (r.1, ⟨r.2, cat_after_change r.1 st.cache⟩)

/-- Body of `ProductCategoryService.delete_category` (the `op()` closure). -/
def delete_category_op (s : Store) (id : Nat) : Except RepoError (Envelope × Store) :=
  match cat_get_by_id s id with
  | none => .ok (error_env "Category not found" none (some "CATEGORY_NOT_FOUND"), s)
  | some cat =>
      match cat_delete_with_validation s id with
      | .error e => .error e
      | .ok (true, s2) =>
          .ok (ok_env ("Category " ++ cat.name ++ " deleted") .vNone
                [("category_id", .vInt id)], s2)
      | .ok (false, s2) =>
          .ok (error_env "Delete failed" none (some "DELETE_FAILED"), s2)

/-- `ProductCategoryService.delete_category(category_id)`.  No
`after_delete` hook is registered in the service constructor (src), so the
cache is left untouched. -/
def delete_category (st : SvcState) (id : Nat) : Envelope × SvcState :=
  let r := safe_repository_operation "delete_category"
    (delete_category_op st.store id) st.store
  (r.1, ⟨r.2, st.cache⟩)

/-- `ProductCategoryService.bulk_create_categories` field-validation pass:
`Item {i}: {e}` for every field error of every item (1-based). -/
def bulk_field_errors (items : List String) : List String :=
  (items.enum.map (fun p =>
    (validate_name p.2).map (fun e => "Item " ++ toString (p.1 + 1) ++ ": " ++ e))).flatten

/-- Body of `ProductCategoryService.bulk_create_categories` (the `op()`
closure): validate every item, then hand the cleaned names to the
repository. -/
def bulk_create_categories_op (s : Store) (items : List String) :
    Except RepoError (Envelope × Store) :=
  let errs := bulk_field_errors items
  if !errs.isEmpty then .ok (validation_error errs, s)
  else
    match bulk_create_categories_repo s (items.map clean_whitespace) with
    | .error e => .error e
    | .ok (created, s2) =>
        .ok (ok_env (toString created.length ++ " categories created")
              (.vList (created.map cat_dto))
              [("total_created", .vInt created.length),
               ("requested", .vInt items.length)], s2)

/-- `ProductCategoryService.bulk_create_categories(items)` (items carry
only their `name` field). -/
def bulk_create_categories (st : SvcState) (items : List String) : Envelope × SvcState :=
  let r := safe_repository_operation "bulk_create_categories"
    (bulk_create_categories_op st.store items) st.store
  (r.1, ⟨r.2, st.cache⟩)

/-- `ProductCategoryRepository.search_by_name_pattern` over the domain
store (SearchMixin `search(pattern, ["name"])`); raises under a store
fault. -/
def search_categories_by_name (s : Store) (q : String) :
    Except RepoError (List ProductCategory) :=
  if s.fault then .error (.storeFault "database error")
  else if q.isEmpty then .ok []
  else .ok (s.categories.filter (fun c => ilikeContains c.name q))

/-- Page-listing dictionary shared by the search branch of
`list_categories` (src) and `paginate`. -/
def pageDict (items : List PyVal) (total page per_page : Nat) : PyVal :=
  .vDict [("items", .vList items), ("total", .vInt total),
          ("page", .vInt page), ("per_page", .vInt per_page),
          ("pages", .vInt (((total + per_page - 1) / per_page : Nat))),
          ("has_next", .vBool (decide (page * per_page < total))),
          ("has_prev", .vBool (decide (1 < page)))]

/-- Modelled from the spec: `BaseService.paginate`
(`app/lib/services/base.py` absent); spec §4.3: `paginate(page, per_page)
-> {items, total, page, per_page, pages, has_next, has_prev}`; raises
under a store fault. -/
def paginate_categories (s : Store) (page per_page : Nat) : Except RepoError PyVal :=
  if s.fault then .error (.storeFault "database error")
  else
    let total := s.categories.length
    let items := (s.categories.drop ((page - 1) * per_page)).take per_page
    .ok (pageDict (items.map cat_dto) total page per_page)

/-- `ProductCategoryService.list_categories(page, per_page, search)`: the
search branch slices the full match list in memory; any raised error is
caught by the method's own handler and turned into a `LIST_FAILED`
envelope. -/
def list_categories (st : SvcState) (page per_page : Nat) (searchTerm : Option String) : Envelope :=
  let q := match searchTerm with | some q => q | none => ""
  let attempt : Except RepoError Envelope :=
    if !q.isEmpty then
      match search_categories_by_name st.store q with
      | .error e => .error e
      | .ok ms =>
          let total := ms.length
          let items := (ms.drop ((page - 1) * per_page)).take per_page
          .ok (ok_env "Categories listed" (pageDict (items.map cat_dto) total page per_page)
                [("search_term", .vStr q), ("total_found", .vInt total)])
    else
      match paginate_categories st.store page per_page with
      | .error e => .error e
      | .ok data =>
          .ok (ok_env "Categories listed" data
                [("search_term", .vNone), ("total_found", .vInt st.store.categories.length)])
  match attempt with
  | .ok env => env
  | .error e => error_env "Listing failed" (some [repoErrMsg e]) (some "LIST_FAILED")

/-! ## Subtype service (src `product_subtype_service.py`) -/

/-- `ProductSubtypeService._validate_relationships(category_id, mine_id)`:
one message per referenced id that does not exist. -/
def validate_relationships (s : Store) (category_id mine_id : Nat) : List String :=
  (if (cat_get_by_id s category_id).isNone then
    ["Category " ++ toString category_id ++ " does not exist"] else []) ++
  (if (mine_get_by_id s mine_id).isNone then
    ["Mine " ++ toString mine_id ++ " does not exist"] else [])

/-- Field validation of the subtype payload against
`ProductSubtypeService._rules` (name rule plus the two id rules). -/
def validate_subtype_payload (name : String) (cid mid : Nat) : List String :=
  validate_name name ++ validate_id_field "category_id" cid ++
    validate_id_field "mine_id" mid

/-- `ProductSubtypeService._after_change(result)`: on success, clear the
cache for `subtypes_select`, `subtype_stats`, `subtype:{id}` and — when
the corresponding id is truthy — `subtypes_by_cat:{category_id}` and
`subtypes_by_mine:{mine_id}` (ids read from the result's metadata/data). -/
def subtype_purge_keys (env : Envelope) : List String :=
  let stId := dictGet env.metadata "subtype_id"
  let d := match env.data with | .vDict l => l | _ => []
  let catId := dictGet d "category_id"
  let mineId := dictGet d "mine_id"
  ["subtypes_select", "subtype_stats", "subtype:" ++ pyFmt stId,
   if catId.truthy then "subtypes_by_cat:" ++ pyFmt catId else "",
   if mineId.truthy then "subtypes_by_mine:" ++ pyFmt mineId else ""].filter
    (fun k => !k.isEmpty)

def subtype_after_change (env : Envelope) (c : SvcCache) : SvcCache :=
  if !env.success then c
  else (subtype_purge_keys env).foldl svc_clear_cache c

/-- Body of `ProductSubtypeService.create_subtype` (the `op()` closure):
field validation, relationship validation, repository create. -/
def create_subtype_op (s : Store) (name : String) (cid mid : Nat) :
    Except RepoError (Envelope × Store) :=
  let errs := validate_subtype_payload name cid mid
  if !errs.isEmpty then .ok (validation_error errs, s)
  else
    let rel := validate_relationships s cid mid
    if !rel.isEmpty then .ok (validation_error rel, s)
    else
      let clean := clean_whitespace name
      match subtype_create_with_validation s clean cid mid with
      | .error e => .error e
      | .ok (row, s2) =>
          .ok (ok_env ("Sub-type " ++ clean ++ " created") (subtype_dto s2 row)
                [("subtype_id", .vInt row.id)], s2)

/-- `ProductSubtypeService.create_subtype(name, category_id, mine_id)`:
the op wrapped in `safe_repository_operation`, then the registered
`after_create` hook (`_after_change`) runs on the result (hook dispatch
modelled from spec §4.4; `app/lib/services/base.py` absent). -/
def create_subtype (st : SvcState) (name : String) (cid mid : Nat) : Envelope × SvcState :=
  let r := safe_repository_operation "create_subtype"
    (create_subtype_op st.store name cid mid) st.store
  (r.1, ⟨r.2, subtype_after_change r.1 st.cache⟩)

/-- Body of `ProductSubtypeService.update_subtype` (the `op()` closure).
The repository returning `None` after the service just fetched the row is
unreachable; Python would fault inside `_dto` and the fault would be
caught by `safe_repository_operation`, which the `.error` branch mirrors. -/
def update_subtype_op (s : Store) (id : Nat) (name : String) (cid mid : Nat) :
    Except RepoError (Envelope × Store) :=
  match subtype_get_by_id s id with
  | none => .ok (error_env "Sub-type not found" none (some "SUBTYPE_NOT_FOUND"), s)
  | some _ =>
      let errs := validate_subtype_payload name cid mid
      if !errs.isEmpty then .ok (validation_error errs, s)
      else
        let rel := validate_relationships s cid mid
        if !rel.isEmpty then .ok (validation_error rel, s)
        else
          let clean := clean_whitespace name
          match subtype_update_with_validation s id clean cid mid with
          | .error e => .error e
          | .ok (some row, s2) =>
              .ok (ok_env ("Sub-type " ++ clean ++ " updated") (subtype_dto s2 row)
                    [("subtype_id", .vInt id)], s2)
          | .ok (none, _) => .error (.storeFault "AttributeError: NoneType has no attribute id")

/-- `ProductSubtypeService.update_subtype(subtype_id, name, category_id,
mine_id)` with the registered `after_update` hook (`_after_change`). -/
def update_subtype (st : SvcState) (id : Nat) (name : String) (cid mid : Nat) :
    Envelope × SvcState :=
  let r := safe_repository_operation "update_subtype"
    (update_subtype_op st.store id name cid mid) st.store
  (r.1, ⟨r.2, subtype_after_change r.1 st.cache⟩)

/-- Body of `ProductSubtypeService.delete_subtype` (the `op()` closure). -/
def delete_subtype_op (s : Store) (id : Nat) : Except RepoError (Envelope × Store) :=
  match subtype_get_by_id s id with
  | none => .ok (error_env "Sub-type not found" none (some "SUBTYPE_NOT_FOUND"), s)
  | some row =>
      match subtype_delete_with_validation s id with
      | .error e => .error e
      | .ok (true, s2) =>
          .ok (ok_env ("Sub-type " ++ row.name ++ " deleted") .vNone
                [("subtype_id", .vInt id)], s2)
      | .ok (false, s2) =>
          .ok (error_env "Delete failed" none (some "DELETE_FAILED"), s2)

/-- `ProductSubtypeService.delete_subtype(subtype_id)`.  No `after_delete`
hook is registered in the service constructor (src), so the cache is left
untouched. -/
def delete_subtype (st : SvcState) (id : Nat) : Envelope × SvcState :=
  let r := safe_repository_operation "delete_subtype"
    (delete_subtype_op st.store id) st.store
  (r.1, ⟨r.2, st.cache⟩)

/-- `MineService.get_mine(mine_id)` (src): the same walrus-truthiness
cache pattern, inlined in the method.  The repository fetch
`self.repository.get_by_id(mine_id)` runs with no handler, so under a
store fault the raised error propagates uncaught out of the public
operation (the `Except` on the result); the `Bool` records whether the
repository fetch was invoked. -/
def get_mine (st : SvcState) (now : Int) (id : Nat) :
    Except RepoError (Envelope × SvcState) × Bool :=
  let key := "mine:" ++ toString id
  match svc_cache_get st.cache now key with
  | some v =>
      if v.truthy then (.ok (ok_env "Mine found" v [], st), false)
      else if st.store.fault then (.error (.storeFault "database error"), true)
      else
        match mine_get_by_id st.store id with
        | none =>
            (.ok (error_env "Mine not found" none (some "MINE_NOT_FOUND"), st), true)
        | some m =>
            (.ok (ok_env "Mine found" (mine_dto m) [],
              { st with cache := svc_cache_set st.cache now key (mine_dto m) 300 }), true)
  | none =>
      if st.store.fault then (.error (.storeFault "database error"), true)
      else
        match mine_get_by_id st.store id with
        | none =>
            (.ok (error_env "Mine not found" none (some "MINE_NOT_FOUND"), st), true)
        | some m =>
            (.ok (ok_env "Mine found" (mine_dto m) [],
              { st with cache := svc_cache_set st.cache now key (mine_dto m) 300 }), true)

/-! ## Helper lemmas -/

theorem find_filter_keep {α : Type} (l : List (String × α)) (k : String)
    (p : String × α → Bool) (hp : ∀ e, (e.1 == k) = true → p e = true) :
    (l.filter p).find? (fun kv => kv.1 == k) = l.find? (fun kv => kv.1 == k) := by
  induction l with
  | nil => rfl
  | cons e rest ih =>
      by_cases hek : (e.1 == k) = true
      · have hpe := hp e hek
        simp [List.filter, hpe, List.find?, hek]
      · rcases hpe : p e with _ | _
        · simp [List.filter, hpe, List.find?, hek, ih]
        · simp [List.filter, hpe, List.find?, hek, ih]

theorem find_filter_drop {α : Type} (l : List (String × α)) (k : String)
    (p : String × α → Bool) (hp : ∀ e, (e.1 == k) = true → p e = false) :
    (l.filter p).find? (fun kv => kv.1 == k) = none := by
  induction l with
  | nil => rfl
  | cons e rest ih =>
      by_cases hek : (e.1 == k) = true
      · have hpe := hp e hek
        simp [List.filter, hpe, List.find?, hek, ih]
      · rcases hpe : p e with _ | _
        · simp [List.filter, hpe, ih]
        · simp [List.filter, hpe, List.find?, hek, ih]

theorem svc_cache_get_clear (c : SvcCache) (pat : String) (now : Int) (k : String) :
    svc_cache_get (svc_clear_cache c pat) now k =
      if strContains k pat then none else svc_cache_get c now k := by
  by_cases h : strContains k pat = true
  · have : (c.entries.filter (fun kv => !strContains kv.1 pat)).find?
        (fun kv => kv.1 == k) = none := by
      apply find_filter_drop
      intro e he
      have : e.1 = k := by
        have := (beq_iff_eq).mp he
        exact this
      simp [this, h]
    simp [svc_cache_get, svc_clear_cache, this, h]
  · have : (c.entries.filter (fun kv => !strContains kv.1 pat)).find?
        (fun kv => kv.1 == k) = c.entries.find? (fun kv => kv.1 == k) := by
      apply find_filter_keep
      intro e he
      have he2 : e.1 = k := (beq_iff_eq).mp he
      simp [he2, h]
    simp [svc_cache_get, svc_clear_cache, this, h]

theorem svc_cache_get_foldl_clear (pats : List String) (c : SvcCache) (now : Int) (k : String) :
    svc_cache_get (pats.foldl svc_clear_cache c) now k =
      if pats.any (fun p => strContains k p) then none else svc_cache_get c now k := by
  induction pats generalizing c with
  | nil => simp
  | cons p rest ih =>
      simp only [List.foldl, ih (svc_clear_cache c p), svc_cache_get_clear]
      by_cases h : strContains k p = true
      · simp [h]
      · simp [h]

theorem bulk_insert_categories_spec (payload : List String) (s : Store) :
    (bulk_insert_categories s payload).2.categories =
      s.categories ++ (bulk_insert_categories s payload).1 ∧
    (bulk_insert_categories s payload).1.length = payload.length ∧
    (bulk_insert_categories s payload).2.subtypes = s.subtypes ∧
    (bulk_insert_categories s payload).2.mines = s.mines := by
  induction payload generalizing s with
  | nil => simp [bulk_insert_categories]
  | cons n rest ih =>
      have h := ih { s with
        categories := s.categories ++ [⟨s.nextId, pyStrip n⟩], nextId := s.nextId + 1 }
      simp only [bulk_insert_categories]
      refine ⟨?_, ?_, ?_, ?_⟩
      · simp only [h.1]
        simp
      · simp [h.2.1]
      · simp [h.2.2.1]
      · simp [h.2.2.2]

theorem find_append_none {α : Type} (l1 l2 : List α) (p : α → Bool)
    (h : l1.find? p = none) : (l1 ++ l2).find? p = l2.find? p := by
  induction l1 with
  | nil => simp
  | cons a rest ih =>
      rcases hpa : p a with _ | _
      · simp only [List.find?, hpa] at h
        simp only [List.cons_append, List.find?, hpa]
        exact ih h
      · simp [List.find?, hpa] at h

theorem find_self_of_nodup (l : List (String × String)) (kv : String × String)
    (hmem : kv ∈ l) (hnd : (l.map Prod.fst).Nodup) :
    l.find? (fun x => x.1 == kv.1) = some kv := by
  induction l with
  | nil => cases hmem
  | cons e rest ih =>
      rcases List.mem_cons.mp hmem with he | hrest
      · subst he
        simp [List.find?]
      · have hne : e.1 ≠ kv.1 := by
          intro hcontra
          have : kv.1 ∈ rest.map Prod.fst := List.mem_map_of_mem Prod.fst hrest
          rw [List.map_cons] at hnd
          rw [hcontra] at hnd
          exact (List.nodup_cons.mp hnd).1 this
        have : (e.1 == kv.1) = false := by
          exact beq_eq_false_iff_ne.mpr hne
        simp only [List.find?, this]
        exact ih hrest (by
          rw [List.map_cons] at hnd
          exact (List.nodup_cons.mp hnd).2)

theorem sorted_keys_perm_eq (l1 l2 : List (String × String))
    (hperm : l1.Perm l2) (hnd : (l1.map Prod.fst).Nodup)
    (hs1 : l1.Sorted (fun a b => a.1 ≤ b.1))
    (hs2 : l2.Sorted (fun a b => a.1 ≤ b.1)) : l1 = l2 := by
  haveI : IsAntisymm (String × String) (fun a b => a.1 < b.1) :=
    ⟨fun a b h1 h2 => absurd (lt_trans h1 h2) (lt_irrefl _)⟩
  have hnd2 : (l2.map Prod.fst).Nodup := ((hperm.map Prod.fst).nodup_iff).mp hnd
  have strict : ∀ (l : List (String × String)), (l.map Prod.fst).Nodup →
      l.Sorted (fun a b => a.1 ≤ b.1) → l.Sorted (fun a b => a.1 < b.1) := by
    intro l hl hsl
    have hne : l.Pairwise (fun a b => a.1 ≠ b.1) := (List.pairwise_map).mp hl
    exact (hsl.and hne).imp (fun h => lt_of_le_of_ne h.1 h.2)
  exact List.eq_of_perm_of_sorted hperm (strict l1 hnd hs1) (strict l2 hnd2 hs2)

/-- C8: `_cache_key` is a deterministic function of model name, method,
positional arguments and the keyword arguments sorted by name: two calls
that differ only in the order the keyword arguments are supplied (keyword
names being distinct, as in a Python `kwargs` dict) produce the same key
string. -/
theorem C8_cache_key_kwarg_order_irrelevant (modelName method : String)
    (args : List String) (kw1 kw2 : List (String × String))
    (hperm : kw1.Perm kw2) (hnd : (kw1.map Prod.fst).Nodup) :
    cache_key modelName method args kw1 = cache_key modelName method args kw2 := by
  have key : List.insertionSort (fun a b : String × String => a.1 ≤ b.1) kw1 =
      List.insertionSort (fun a b : String × String => a.1 ≤ b.1) kw2 := by
    haveI : IsTotal (String × String) (fun a b => a.1 ≤ b.1) :=
      ⟨fun a b => le_total a.1 b.1⟩
    haveI : IsTrans (String × String) (fun a b => a.1 ≤ b.1) :=
      ⟨fun a b c h1 h2 => le_trans h1 h2⟩
    apply sorted_keys_perm_eq
    · exact ((List.perm_insertionSort _ kw1).trans hperm).trans
        (List.perm_insertionSort _ kw2).symm
    · exact ((List.perm_insertionSort _ kw1).map Prod.fst).nodup_iff.mpr hnd
    · exact List.sorted_insertionSort _ kw1
    · exact List.sorted_insertionSort _ kw2
  unfold cache_key
  rw [key]

/-- Witness for C8 at a concrete input: the two supply orders of
`category_id=1, mine_id=7` yield the same cache key. -/
theorem C8_witness :
    cache_key "ProductSubtype" "list" ["x"]
      [("mine_id", "7"), ("category_id", "1")] =
    cache_key "ProductSubtype" "list" ["x"]
      [("category_id", "1"), ("mine_id", "7")] :=
  C8_cache_key_kwarg_order_irrelevant "ProductSubtype" "list" ["x"]
    [("mine_id", "7"), ("category_id", "1")] [("category_id", "1"), ("mine_id", "7")]
    (by decide) (by decide)

theorem contains_iff_mem (l : List String) (a : String) : l.contains a = true ↔ a ∈ l :=
  List.elem_iff

/-- C6: membership in `search(phrase, fields)` holds exactly when the
phrase is nonempty, the field list is nonempty, the row is stored, and
some listed field is an attribute of the model whose value
case-insensitively contains the phrase as a substring — so the result is
empty whenever the phrase is empty, the field list is empty, or no listed
field is a model attribute, and otherwise it is exactly the matching
rows. -/
theorem C6_search_characterization (g : GStore) (phrase : String)
    (fields : List String) (r : GRow) :
    r ∈ search g phrase fields ↔
      (phrase.isEmpty = false ∧ fields.isEmpty = false ∧ r ∈ g.rows ∧
        ∃ f ∈ fields, f ∈ g.attrs ∧ ilikeContains (rowGet r f) phrase = true) := by
  unfold search
  by_cases hp : phrase.isEmpty = true
  · simp [hp]
  · by_cases hf : fields.isEmpty = true
    · simp [hf]
    · by_cases hc : (fields.filter (fun f => g.attrs.contains f)).isEmpty = true
      · have hnone : ∀ f ∈ fields, f ∉ g.attrs := by
          intro f hfm hfa
          have hmm : f ∈ fields.filter (fun f => g.attrs.contains f) :=
            List.mem_filter.mpr ⟨hfm, (contains_iff_mem _ _).mpr hfa⟩
          rw [List.isEmpty_iff.mp hc] at hmm
          cases hmm
        simp only [hp, hf, hc]
        simp only [Bool.not_eq_true] at hp hf
        simp [hp, hf]
        intro _ f hfm hfa
        exact absurd hfa (hnone f hfm)
      · simp only [Bool.not_eq_true] at hp hf
        simp [hp, hf, hc, List.mem_filter, List.any_eq_true, contains_iff_mem]
        intro _ x hx ha _
        exact ⟨x, hx, ha⟩

/-- Witness for C6 at a concrete input: the phrase `baux` matches the
stored row on the valid field `name`. -/
theorem C6_witness :
    (⟨1, [("name", "Bauxite Fine")]⟩ : GRow) ∈
      search ⟨["name"], [⟨1, [("name", "Bauxite Fine")]⟩], 2⟩ "baux" ["name"] :=
  (C6_search_characterization _ _ _ _).mpr
    ⟨rfl, rfl, by simp, "name", by simp, by simp, by rfl⟩

theorem subtype_purge_keys_mem (env : Envelope) :
    "subtypes_select" ∈ subtype_purge_keys env ∧
    "subtype_stats" ∈ subtype_purge_keys env := by
  unfold subtype_purge_keys
  constructor <;> (rw [List.mem_filter]; exact ⟨by simp, by decide⟩)

theorem subtype_after_change_purges (env : Envelope) (c : SvcCache) (now : Int)
    (k : String) (hsucc : env.success = true)
    (hk : strContains k "subtypes_select" = true ∨ strContains k "subtype_stats" = true) :
    svc_cache_get (subtype_after_change env c) now k = none := by
  unfold subtype_after_change
  rw [hsucc]
  have hany : (subtype_purge_keys env).any (fun p => strContains k p) = true := by
    rcases hk with h | h
    · exact List.any_eq_true.mpr ⟨_, (subtype_purge_keys_mem env).1, h⟩
    · exact List.any_eq_true.mpr ⟨_, (subtype_purge_keys_mem env).2, h⟩
  simp only [Bool.not_true, Bool.false_eq_true, if_false,
    svc_cache_get_foldl_clear, hany, if_true]

/-- C1 (counterexample): starting from a store holding category 1
`Bauxite-A` and mine 7 `PitOne`, with valid cache entries (written at time
0, TTLs 600) for `subtypes_select` and `category_subtypes:1`, the subtype
creation `create_subtype("Fine", category_id=1, mine_id=7)` succeeds, yet
at time 10 the key `category_subtypes:1` still holds a valid entry —
contradicting the claim that after the creation both `subtypes_select`
and `category_subtypes:1` hold no valid entry (and `delete` operations,
for which no `after_delete` hook is registered, purge nothing at all). -/
theorem C1_counterexample :
    (create_subtype ⟨⟨[⟨1, "Bauxite-A"⟩], [⟨7, "PitOne"⟩], [], 8, false⟩,
      ⟨[("subtypes_select", ⟨.vList [.vStr "x"], 0, 600⟩),
        ("category_subtypes:1", ⟨.vDict [("id", .vInt 1)], 0, 600⟩)]⟩⟩ "Fine" 1 7).1.success
      = true ∧
    svc_cache_get (create_subtype ⟨⟨[⟨1, "Bauxite-A"⟩], [⟨7, "PitOne"⟩], [], 8, false⟩,
      ⟨[("subtypes_select", ⟨.vList [.vStr "x"], 0, 600⟩),
        ("category_subtypes:1", ⟨.vDict [("id", .vInt 1)], 0, 600⟩)]⟩⟩ "Fine" 1 7).2.cache
      10 "category_subtypes:1" = some (.vDict [("id", .vInt 1)]) ∧
    svc_cache_get (create_subtype ⟨⟨[⟨1, "Bauxite-A"⟩], [⟨7, "PitOne"⟩], [], 8, false⟩,
      ⟨[("subtypes_select", ⟨.vList [.vStr "x"], 0, 600⟩),
        ("category_subtypes:1", ⟨.vDict [("id", .vInt 1)], 0, 600⟩)]⟩⟩ "Fine" 1 7).2.cache
      10 "subtypes_select" = none :=
  ⟨rfl, rfl, rfl⟩

/-- C1 (amended): after every successful `create_subtype` or
`update_subtype`, the cache holds no valid entry under any key containing
the aggregate substrings `subtypes_select` or `subtype_stats` (the keys
the registered `_after_change` hook purges); keys of other entity types —
such as `category_subtypes:{id}`, see the counterexample — are not
purged, and `delete_subtype` / `delete_category` leave the cache exactly
unchanged because the services register no `after_delete` hook. -/
theorem C1_amended_purge_behaviour (st : SvcState) (name : String)
    (cid mid sid : Nat) (now : Int) (k : String)
    (hk : strContains k "subtypes_select" = true ∨ strContains k "subtype_stats" = true) :
    ((create_subtype st name cid mid).1.success = true →
      svc_cache_get (create_subtype st name cid mid).2.cache now k = none) ∧
    ((update_subtype st sid name cid mid).1.success = true →
      svc_cache_get (update_subtype st sid name cid mid).2.cache now k = none) ∧
    (delete_subtype st sid).2.cache = st.cache ∧
    (delete_category st sid).2.cache = st.cache := by
  refine ⟨?_, ?_, rfl, rfl⟩
  · intro hsucc
    exact subtype_after_change_purges _ _ now k hsucc hk
  · intro hsucc
    exact subtype_after_change_purges _ _ now k hsucc hk

/-- Witness for the amended C1 at a concrete input: the creation of
`Fine` under category 1 / mine 7 succeeds and afterwards `subtypes_select`
holds no valid entry. -/
theorem C1_witness :
    svc_cache_get (create_subtype ⟨⟨[⟨1, "Bauxite-A"⟩], [⟨7, "PitOne"⟩], [], 8, false⟩,
      ⟨[("subtypes_select", ⟨.vList [.vStr "x"], 0, 600⟩)]⟩⟩ "Fine" 1 7).2.cache
      10 "subtypes_select" = none :=
  (C1_amended_purge_behaviour
      ⟨⟨[⟨1, "Bauxite-A"⟩], [⟨7, "PitOne"⟩], [], 8, false⟩,
        ⟨[("subtypes_select", ⟨.vList [.vStr "x"], 0, 600⟩)]⟩⟩
      "Fine" 1 7 0 10 "subtypes_select" (Or.inl rfl)).1 rfl

/-- C2 (counterexample): a falsy value — here the empty subtype list —
cached at time 0 with TTL 300 is still a valid entry at time 10
(`svc_cache_get` returns it), yet the service wrapper `_cached_simple`
invokes the fetch function again instead of returning without re-fetching,
because its walrus test `if cached := self._cache_get(key):` tests
truthiness rather than presence. -/
theorem C2_counterexample :
    svc_cache_get (⟨[("subtypes_by_cat:1", ⟨.vList [], 0, 300⟩)]⟩ : SvcCache)
      10 "subtypes_by_cat:1" = some (.vList []) ∧
    (cached_simple ⟨⟨[], [], [], 1, false⟩,
        ⟨[("subtypes_by_cat:1", ⟨.vList [], 0, 300⟩)]⟩⟩
      10 "subtypes_by_cat:1" "Sub-types for category 1" 300 (.ok (.vList []))).2
        = true :=
  ⟨rfl, rfl⟩

/-- C2 (amended): for `CacheMixin.cached_query` the claim holds as
stated — an entry strictly younger than the TTL is returned without
invoking the fetch function and the cache is unchanged; an entry at least
as old as the TTL counts as absent, the fetch function runs again and its
result is re-stored with a fresh timestamp; in particular a second call
within the TTL of a storing first call returns the first call's value
without fetching.  For the services' cache wrappers the claim holds only
when the stored value is truthy (falsy values are re-fetched, see the
counterexample). -/
theorem C2_amended_cache_read_behaviour (c : MixinCache) (now now1 now2 : Int)
    (key msg : String) (fetched f1 f2 : PyVal) (e : String × CacheEntry)
    (st : SvcState) (ttl : Int) (v : PyVal) (fsvc : Except RepoError PyVal) :
    ((c.entries.find? (fun kv => kv.1 == key)) = some e →
      now - e.2.ts < c.timeout →
      cached_query c now key fetched = (e.2.data, c, false)) ∧
    ((c.entries.find? (fun kv => kv.1 == key)) = some e →
      c.timeout ≤ now - e.2.ts →
      cached_query c now key fetched =
        (fetched,
         { c with entries := (key, ⟨fetched, now⟩) :: c.entries.filter (fun kv => kv.1 != key) },
         true)) ∧
    ((cached_query c now1 key f1).2.2 = true → now2 - now1 < c.timeout →
      cached_query (cached_query c now1 key f1).2.1 now2 key f2 =
        (f1, (cached_query c now1 key f1).2.1, false)) ∧
    (svc_cache_get st.cache now key = some v → v.truthy = true →
      cached_simple st now key msg ttl fsvc = (.ok (ok_env msg v [], st), false)) := by
  refine ⟨?_, ?_, ?_, ?_⟩
  · intro hfind hlt
    simp [cached_query, hfind, cache_valid, hlt]
  · intro hfind hge
    simp [cached_query, hfind, cache_valid, not_lt.mpr hge]
  · intro hflag hlt
    by_cases hv : cache_valid c now1 ((c.entries.find? (fun kv => kv.1 == key)).map
      (fun kv => kv.2)) = true
    · exfalso
      simp [cached_query, hv] at hflag
    · simp only [cached_query, hv, if_false, Bool.not_eq_true] at hflag ⊢
      simp [cached_query, List.find?, cache_valid, hv, hlt]
  · intro hget htruthy
    simp [cached_simple, hget, htruthy]

/-- Witness for the amended C2 at a concrete input: after a first
`cached_query` call at time 0 stores the value 5, a second call at time
10 (within the 300-second TTL) returns 5 without invoking its fetch
function (which would have produced 9). -/
theorem C2_witness :
    cached_query (cached_query ⟨300, []⟩ 0 "ProductCategory:find_by_name:X" (.vInt 5)).2.1
      10 "ProductCategory:find_by_name:X" (.vInt 9) =
      (.vInt 5,
       (cached_query ⟨300, []⟩ 0 "ProductCategory:find_by_name:X" (.vInt 5)).2.1,
       false) :=
  ((C2_amended_cache_read_behaviour ⟨300, []⟩ 0 0 10 "ProductCategory:find_by_name:X" ""
      (.vNone) (.vInt 5) (.vInt 9) ("", ⟨.vNone, 0⟩)
      ⟨⟨[], [], [], 0, false⟩, ⟨[]⟩⟩ 0 .vNone (.ok .vNone)).2.2.1) rfl (by decide)

/-- C3: `delete_category(category_id)` on an existing category: when the
category still owns at least one subtype, the `before_delete` hook raises
the integrity error, the service returns an error envelope
(`success=false`, the integrity message in `errors`, the operation code)
and the store is completely unchanged; when the category owns no
subtype, the delete succeeds with a success envelope, the category row is
removed and the subtype table is untouched. -/
theorem C3_delete_category_integrity (st : SvcState) (id : Nat)
    (cat : ProductCategory) (hcat : cat_get_by_id st.store id = some cat)
    (hfault : st.store.fault = false) :
    ((st.store.subtypes.filter (fun x => x.category_id == id)) ≠ [] →
      (delete_category st id).1.success = false ∧
      (delete_category st id).1.errors =
        some ["Cannot delete a category that still has sub-types"] ∧
      (delete_category st id).1.error_code = some "DELETE_CATEGORY_FAILED" ∧
      (delete_category st id).2.store = st.store) ∧
    ((st.store.subtypes.filter (fun x => x.category_id == id)) = [] →
      (delete_category st id).1.success = true ∧
      (delete_category st id).2.store.categories =
        st.store.categories.filter (fun c => c.id != id) ∧
      (delete_category st id).2.store.subtypes = st.store.subtypes) := by
  have hid : cat.id = id := by
    have h := List.find?_some hcat
    exact beq_iff_eq.mp h
  constructor
  · intro hne
    have hfe : (st.store.subtypes.filter (fun x => x.category_id == cat.id)).isEmpty = false := by
      rw [hid]
      rcases he : (st.store.subtypes.filter (fun x => x.category_id == id)).isEmpty with _ | _
      · exact he
      · exact absurd (List.isEmpty_iff.mp he) hne
    refine ⟨?_, ?_, ?_, ?_⟩ <;>
      (simp [delete_category, delete_category_op, cat_delete_with_validation, cat_delete,
        safe_repository_operation, hcat, hfault, hfe, repoErrMsg, error_env, opCode];
       try rfl)
  · intro hnil
    have hfe : (st.store.subtypes.filter (fun x => x.category_id == cat.id)).isEmpty = true := by
      rw [hid, hnil]
      rfl
    simp [delete_category, delete_category_op, cat_delete_with_validation, cat_delete,
      safe_repository_operation, hcat, hfault, hfe, ok_env]

/-- Witness for C3 at concrete inputs: deleting category 1 fails while
subtype 3 still references it, and deleting a subtype-free category 1
succeeds. -/
theorem C3_witness :
    (delete_category
      ⟨⟨[⟨1, "A-Cat"⟩], [⟨2, "M"⟩], [⟨3, "Fine", 1, 2⟩], 4, false⟩, ⟨[]⟩⟩ 1).1.success
        = false ∧
    (delete_category ⟨⟨[⟨1, "B-Cat"⟩], [], [], 2, false⟩, ⟨[]⟩⟩ 1).1.success = true :=
  ⟨((C3_delete_category_integrity
      ⟨⟨[⟨1, "A-Cat"⟩], [⟨2, "M"⟩], [⟨3, "Fine", 1, 2⟩], 4, false⟩, ⟨[]⟩⟩ 1
      ⟨1, "A-Cat"⟩ rfl rfl).1 (by decide)).1,
   ((C3_delete_category_integrity
      ⟨⟨[⟨1, "B-Cat"⟩], [], [], 2, false⟩, ⟨[]⟩⟩ 1
      ⟨1, "B-Cat"⟩ rfl rfl).2 rfl).1⟩

/-- C4 (counterexample): with category 1 present and mine 7 absent, the
call `create_subtype("Fi", 1, 7)` — whose name fails field validation —
returns a validation envelope whose error list contains only the name
error and does not name the missing mine 7: field validation
short-circuits before `_validate_relationships` runs, so the claim's
"whenever the referenced id does not exist the error list names each
missing id" fails. -/
theorem C4_counterexample :
    mine_get_by_id (⟨[⟨1, "Bauxite-A"⟩], [], [], 2, false⟩ : Store) 7 = none ∧
    (create_subtype ⟨⟨[⟨1, "Bauxite-A"⟩], [], [], 2, false⟩, ⟨[]⟩⟩ "Fi" 1 7).1.success
      = false ∧
    (create_subtype ⟨⟨[⟨1, "Bauxite-A"⟩], [], [], 2, false⟩, ⟨[]⟩⟩ "Fi" 1 7).1.errors =
      some ["name must be at least 3 characters long"] ∧
    "Mine 7 does not exist" ∉
      ((create_subtype ⟨⟨[⟨1, "Bauxite-A"⟩], [], [], 2, false⟩, ⟨[]⟩⟩
        "Fi" 1 7).1.errors.getD []) :=
  ⟨rfl, rfl, rfl, by decide⟩

/-- C4 (amended): for create/update subtype calls whose payload passes
field validation: if the referenced category or mine id does not exist,
the service returns the validation-error envelope carrying exactly the
`_validate_relationships` messages — which name each missing id
(`Category {id} does not exist`, `Mine {id} does not exist`) — and the
store is unchanged; if both ids exist (and the compound key is not a
duplicate), the creation proceeds and appends the row. -/
theorem C4_subtype_relationship_validation (st : SvcState) (name : String)
    (cid mid sid : Nat) (row : ProductSubtype)
    (hval : validate_subtype_payload name cid mid = []) :
    (validate_relationships st.store cid mid ≠ [] →
      (create_subtype st name cid mid).1 =
        validation_error (validate_relationships st.store cid mid) ∧
      (create_subtype st name cid mid).2.store = st.store) ∧
    (cat_get_by_id st.store cid = none →
      ("Category " ++ toString cid ++ " does not exist") ∈
        validate_relationships st.store cid mid) ∧
    (mine_get_by_id st.store mid = none →
      ("Mine " ++ toString mid ++ " does not exist") ∈
        validate_relationships st.store cid mid) ∧
    (subtype_get_by_id st.store sid = some row →
      validate_relationships st.store cid mid ≠ [] →
      (update_subtype st sid name cid mid).1 =
        validation_error (validate_relationships st.store cid mid) ∧
      (update_subtype st sid name cid mid).2.store = st.store) ∧
    (validate_relationships st.store cid mid = [] →
      combination_exists st.store (pyStrip (clean_whitespace name)) cid mid none = false →
      st.store.fault = false →
      (create_subtype st name cid mid).1.success = true ∧
      (create_subtype st name cid mid).2.store.subtypes =
        st.store.subtypes ++
          [⟨st.store.nextId, pyStrip (clean_whitespace name), cid, mid⟩]) := by
  refine ⟨?_, ?_, ?_, ?_, ?_⟩
  · intro hrel
    have hre : (validate_relationships st.store cid mid).isEmpty = false := by
      rcases he : (validate_relationships st.store cid mid).isEmpty with _ | _
      · rfl
      · exact absurd (List.isEmpty_iff.mp he) hrel
    constructor <;>
      simp [create_subtype, create_subtype_op, safe_repository_operation, hval, hre]
  · intro hcat
    simp [validate_relationships, hcat]
  · intro hmine
    simp [validate_relationships, hmine]
  · intro hrow hrel
    have hre : (validate_relationships st.store cid mid).isEmpty = false := by
      rcases he : (validate_relationships st.store cid mid).isEmpty with _ | _
      · rfl
      · exact absurd (List.isEmpty_iff.mp he) hrel
    constructor <;>
      simp [update_subtype, update_subtype_op, safe_repository_operation, hrow, hval, hre]
  · intro hrel hdup hfault
    constructor <;>
      simp [create_subtype, create_subtype_op, safe_repository_operation, hval, hrel,
        subtype_create_with_validation, subtype_create, hdup, hfault, ok_env]

/-- Witness for the amended C4 at a concrete input: `create_subtype
("Fine", 1, 7)` with category 1 present and mine 7 absent yields the
validation envelope naming `Mine 7 does not exist`, and the store is
unchanged. -/
theorem C4_witness :
    (create_subtype ⟨⟨[⟨1, "Bauxite-A"⟩], [], [], 2, false⟩, ⟨[]⟩⟩ "Fine" 1 7).1 =
      validation_error ["Mine 7 does not exist"] ∧
    (create_subtype ⟨⟨[⟨1, "Bauxite-A"⟩], [], [], 2, false⟩, ⟨[]⟩⟩ "Fine" 1 7).2.store =
      (⟨[⟨1, "Bauxite-A"⟩], [], [], 2, false⟩ : Store) :=
  ((C4_subtype_relationship_validation
      ⟨⟨[⟨1, "Bauxite-A"⟩], [], [], 2, false⟩, ⟨[]⟩⟩ "Fine" 1 7 0
      ⟨0, "", 0, 0⟩ rfl).1 (by decide))

/-- C5: bulk category creation validates every item before inserting any:
if any item fails field validation the service returns the collected
validation errors and the store is unchanged; if field validation passes
but the repository pre-check finds an empty or duplicate name, the raised
error is reported in an error envelope and the store is unchanged; when
every item is valid, all items are inserted (one created row per
requested item). -/
theorem C5_bulk_create_all_or_nothing (st : SvcState) (items : List String)
    (e : RepoError) :
    (bulk_field_errors items ≠ [] →
      (bulk_create_categories st items).1 = validation_error (bulk_field_errors items) ∧
      (bulk_create_categories st items).2.store = st.store) ∧
    (bulk_field_errors items = [] → st.store.fault = false →
      bulk_check_categories st.store (items.map clean_whitespace) = some e →
      (bulk_create_categories st items).1.success = false ∧
      (bulk_create_categories st items).1.errors = some [repoErrMsg e] ∧
      (bulk_create_categories st items).2.store = st.store) ∧
    (bulk_field_errors items = [] → st.store.fault = false →
      bulk_check_categories st.store (items.map clean_whitespace) = none →
      (bulk_create_categories st items).1.success = true ∧
      (bulk_create_categories st items).2.store.categories =
        st.store.categories ++
          (bulk_insert_categories st.store (items.map clean_whitespace)).1 ∧
      (bulk_insert_categories st.store (items.map clean_whitespace)).1.length
        = items.length) := by
  refine ⟨?_, ?_, ?_⟩
  · intro hne
    have hfe : (bulk_field_errors items).isEmpty = false := by
      rcases he : (bulk_field_errors items).isEmpty with _ | _
      · rfl
      · exact absurd (List.isEmpty_iff.mp he) hne
    constructor <;>
      simp [bulk_create_categories, bulk_create_categories_op,
        safe_repository_operation, hfe]
  · intro hval hfault hcheck
    refine ⟨?_, ?_, ?_⟩ <;>
      simp [bulk_create_categories, bulk_create_categories_op,
        bulk_create_categories_repo, safe_repository_operation, hval, hfault, hcheck,
        error_env]
  · intro hval hfault hcheck
    have hspec := bulk_insert_categories_spec (items.map clean_whitespace) st.store
    refine ⟨?_, ?_, ?_⟩
    · simp [bulk_create_categories, bulk_create_categories_op,
        bulk_create_categories_repo, safe_repository_operation, hval, hfault, hcheck,
        ok_env]
    · simp only [bulk_create_categories, bulk_create_categories_op,
        bulk_create_categories_repo, safe_repository_operation, hval, hfault, hcheck]
      simp [hspec.1]
    · rw [hspec.2.1, List.length_map]

/-- Witness for C5 at a concrete input: a two-item payload with one valid
and one empty name inserts nothing and reports the invalid item's error. -/
theorem C5_witness :
    (bulk_create_categories ⟨⟨[], [], [], 1, false⟩, ⟨[]⟩⟩ ["Valid Name", ""]).1 =
      validation_error ["Item 2: name is required"] ∧
    (bulk_create_categories ⟨⟨[], [], [], 1, false⟩, ⟨[]⟩⟩ ["Valid Name", ""]).2.store =
      (⟨[], [], [], 1, false⟩ : Store) :=
  (C5_bulk_create_all_or_nothing ⟨⟨[], [], [], 1, false⟩, ⟨[]⟩⟩ ["Valid Name", ""]
    (.validationE "")).1 (by decide)

/-- C7 (counterexample): `MineService.get_mine` is a public service
operation, yet on a cache miss with the backing store faulted it does not
return an envelope at all: the error raised by
`self.repository.get_by_id(mine_id)` propagates uncaught out of the
operation (first component `.error`), refuting "every public service
operation ... never lets a raised error propagate to its caller". -/
theorem C7_counterexample :
    (get_mine ⟨⟨[], [⟨7, "PitOne"⟩], [], 8, true⟩, ⟨[]⟩⟩ 0 7).1 =
      .error (.storeFault "database error") ∧
    (get_mine ⟨⟨[], [⟨7, "PitOne"⟩], [], 8, true⟩, ⟨[]⟩⟩ 0 7).2 = true :=
  ⟨rfl, rfl⟩

/-- C7 (amended): the operations wrapped in `safe_repository_operation`
or equipped with their own handler convert any repository/store error
into the uniform envelope: `create_category` (past field validation)
returns `success=false` with code `CREATE_CATEGORY_FAILED`,
`list_categories` catches in its own handler and returns `LIST_FAILED`
(search and pagination branches alike), and `delete_category` of an
existing category returns `DELETE_CATEGORY_FAILED`.  The cached read
helpers, however, run their fetch with no handler: on a cache miss
`_cached_simple` and `_cached_entity` let the fetch function's raised
error escape, and `get_mine` lets a store fault escape the public
operation. -/
theorem C7_amended_error_envelope_coverage (st : SvcState) (name : String)
    (id page per_page : Nat) (q : Option String) (cat : ProductCategory)
    (now ttl : Int) (key msg notFoundMsg errorCode : String) (e : RepoError) :
    (st.store.fault = true → validate_name name = [] →
      (create_category st name).1.success = false ∧
      (create_category st name).1.error_code = some "CREATE_CATEGORY_FAILED") ∧
    (st.store.fault = true →
      (list_categories st page per_page q).success = false ∧
      (list_categories st page per_page q).error_code = some "LIST_FAILED") ∧
    (st.store.fault = true → cat_get_by_id st.store id = some cat →
      (delete_category st id).1.success = false ∧
      (delete_category st id).1.error_code = some "DELETE_CATEGORY_FAILED") ∧
    (svc_cache_get st.cache now key = none →
      (cached_simple st now key msg ttl (.error e)).1 = .error e) ∧
    (svc_cache_get st.cache now key = none →
      (cached_entity st now key notFoundMsg errorCode ttl (.error e)).1 = .error e) ∧
    (svc_cache_get st.cache now ("mine:" ++ toString id) = none →
      st.store.fault = true →
      (get_mine st now id).1 = .error (.storeFault "database error")) := by
  refine ⟨?_, ?_, ?_, ?_, ?_, ?_⟩
  · intro hfault hval
    by_cases hex : cat_name_exists st.store (pyStrip (clean_whitespace name)) none = true
    · constructor <;>
        (simp [create_category, create_category_op, cat_create_with_validation,
          cat_create, safe_repository_operation, hval, hex, hfault, error_env, opCode];
         try rfl)
    · constructor <;>
        (simp [create_category, create_category_op, cat_create_with_validation,
          cat_create, safe_repository_operation, hval, hex, hfault, error_env, opCode];
         try rfl)
  · intro hfault
    rcases q with _ | q
    · have h0 : "".isEmpty = true := rfl
      constructor <;>
        simp [list_categories, paginate_categories, hfault, error_env, h0]
    · by_cases hq : q.isEmpty = true
      · constructor <;>
          simp [list_categories, paginate_categories, hfault, hq, error_env]
      · constructor <;>
          simp [list_categories, search_categories_by_name, hfault, hq, error_env]
  · intro hfault hcat
    constructor <;>
      (simp [delete_category, delete_category_op, cat_delete_with_validation,
        cat_delete, safe_repository_operation, hcat, hfault, error_env, opCode];
       try rfl)
  · intro hnone
    simp [cached_simple, hnone]
  · intro hnone
    simp [cached_entity, hnone]
  · intro hnone hfault
    simp [get_mine, hnone, hfault]

/-- Witness for the amended C7 at concrete inputs: with the backing store
faulted, creating a valid category and listing categories return error
envelopes with their operation codes, while `get_mine` on an empty cache
lets the store error escape. -/
theorem C7_witness :
    (create_category ⟨⟨[], [], [], 1, true⟩, ⟨[]⟩⟩ "GoodName").1.error_code =
      some "CREATE_CATEGORY_FAILED" ∧
    (list_categories ⟨⟨[], [], [], 1, true⟩, ⟨[]⟩⟩ 1 20 none).error_code =
      some "LIST_FAILED" ∧
    (get_mine ⟨⟨[], [], [], 1, true⟩, ⟨[]⟩⟩ 0 7).1 =
      .error (.storeFault "database error") :=
  ⟨((C7_amended_error_envelope_coverage ⟨⟨[], [], [], 1, true⟩, ⟨[]⟩⟩ "GoodName"
      0 1 20 none ⟨0, ""⟩ 0 0 "" "" "" "" (.storeFault "")).1 rfl rfl).2,
   ((C7_amended_error_envelope_coverage ⟨⟨[], [], [], 1, true⟩, ⟨[]⟩⟩ "GoodName"
      0 1 20 none ⟨0, ""⟩ 0 0 "" "" "" "" (.storeFault "")).2.1 rfl).2,
   (C7_amended_error_envelope_coverage ⟨⟨[], [], [], 1, true⟩, ⟨[]⟩⟩ "GoodName"
      7 1 20 none ⟨0, ""⟩ 0 0 "" "" "" "" (.storeFault "")).2.2.2.2.2 rfl rfl⟩

theorem find_append_some {α : Type} (l1 l2 : List α) (p : α → Bool) (x : α)
    (h : l1.find? p = some x) : (l1 ++ l2).find? p = some x := by
  induction l1 with
  | nil => cases h
  | cons a rest ih =>
      rcases hpa : p a with _ | _
      · simp only [List.find?, hpa] at h
        simp only [List.cons_append, List.find?, hpa]
        exact ih h
      · simp only [List.find?, hpa] at h
        simp only [List.cons_append, List.find?, hpa]
        exact h

/-- C9 (counterexample): with `defaults = {name: "B"}` overriding the
lookup key `{name: "A"}`, the first `get_or_create` call inserts a row
whose `name` is `B`; that row does not match the lookup, so the second
call with the same arguments reports `created = True` again and inserts a
second row — `get_or_create` is not idempotent as claimed. -/
theorem C9_counterexample :
    (get_or_create ⟨["name"], [], 1⟩ [("name", "B")] [("name", "A")]).2.1 = true ∧
    (get_or_create
      (get_or_create ⟨["name"], [], 1⟩ [("name", "B")] [("name", "A")]).2.2
      [("name", "B")] [("name", "A")]).2.1 = true ∧
    (get_or_create
      (get_or_create ⟨["name"], [], 1⟩ [("name", "B")] [("name", "A")]).2.2
      [("name", "B")] [("name", "A")]).2.2.rows.length = 2 :=
  ⟨rfl, rfl, rfl⟩

/-- C9 (amended): `get_or_create(defaults, **lookup)` is idempotent
provided `defaults` overrides no lookup key (and the lookup keys are
distinct, as they are for a Python kwargs dict): when a row matching
`lookup` exists, it is returned unmodified with `created = False` and the
store is untouched; when none exists, the first call creates and a second
call with the same lookup returns exactly the created row with
`created = False`, inserting nothing. -/
theorem C9_amended_get_or_create_idempotent (g : GStore)
    (defaults lookup : List (String × String)) (r : GRow)
    (hnd : (lookup.map Prod.fst).Nodup)
    (hdisj : ∀ dv ∈ defaults, ∀ kv ∈ lookup, dv.1 ≠ kv.1) :
    (g.rows.find? (fun r2 => rowMatches r2 lookup) = some r →
      get_or_create g defaults lookup = (r, false, g)) ∧
    (g.rows.find? (fun r2 => rowMatches r2 lookup) = none →
      (get_or_create g defaults lookup).2.1 = true ∧
      get_or_create (get_or_create g defaults lookup).2.2 defaults lookup =
        ((get_or_create g defaults lookup).1, false,
         (get_or_create g defaults lookup).2.2)) := by
  constructor
  · intro hfind
    simp [get_or_create, hfind]
  · intro hnone
    have hdnone : ∀ kv ∈ lookup, defaults.find? (fun dv => dv.1 == kv.1) = none := by
      intro kv hkv
      rcases hd : defaults.find? (fun dv => dv.1 == kv.1) with _ | dv
      · exact hd
      · have hp := List.find?_some hd
        have heq : dv.1 = kv.1 := by simpa using hp
        exact absurd heq (hdisj dv (List.mem_of_find?_eq_some hd) kv hkv)
    have hmerge : mergeKwargs lookup defaults =
        lookup ++ defaults.filter (fun dv => !(lookup.any (fun kv => kv.1 == dv.1))) := by
      unfold mergeKwargs
      congr 1
      calc lookup.map (fun kv =>
            (kv.1, match defaults.find? (fun dv => dv.1 == kv.1) with
                   | some dv => dv.2
                   | none => kv.2))
          = lookup.map id := by
            apply List.map_congr_left
            intro kv hkv
            rw [hdnone kv hkv]
            rfl
        _ = lookup := List.map_id lookup
    have hmatch : rowMatches ⟨g.nextId, mergeKwargs lookup defaults⟩ lookup = true := by
      rw [rowMatches, List.all_eq_true]
      intro kv hkv
      have : rowGet ⟨g.nextId, mergeKwargs lookup defaults⟩ kv.1 = kv.2 := by
        rw [rowGet]
        simp only [hmerge]
        rw [find_append_some _ _ _ kv (find_self_of_nodup lookup kv hkv hnd)]
      rw [this]
      exact beq_self_eq_true kv.2
    have hfind2 : ((get_or_create g defaults lookup).2.2).rows.find?
        (fun r2 => rowMatches r2 lookup) = some ⟨g.nextId, mergeKwargs lookup defaults⟩ := by
      have hrows : ((get_or_create g defaults lookup).2.2).rows =
          g.rows ++ [⟨g.nextId, mergeKwargs lookup defaults⟩] := by
        simp [get_or_create, hnone, gCreate]
      rw [hrows, find_append_none _ _ _ hnone]
      simp [List.find?, hmatch]
    refine ⟨by simp [get_or_create, hnone, gCreate], ?_⟩
    have hfst : (get_or_create g defaults lookup).1 =
        ⟨g.nextId, mergeKwargs lookup defaults⟩ := by
      simp [get_or_create, hnone, gCreate]
    rw [get_or_create, hfind2, hfst]

/-- Witness for the amended C9 at a concrete input: with defaults on the
separate key `desc`, the first call creates and the second call returns
that row with `created = False` and no new insertion. -/
theorem C9_witness :
    (get_or_create ⟨["name", "desc"], [], 1⟩ [("desc", "D")] [("name", "A")]).2.1
      = true ∧
    get_or_create
        (get_or_create ⟨["name", "desc"], [], 1⟩ [("desc", "D")] [("name", "A")]).2.2
        [("desc", "D")] [("name", "A")] =
      ((get_or_create ⟨["name", "desc"], [], 1⟩ [("desc", "D")] [("name", "A")]).1,
       false,
       (get_or_create ⟨["name", "desc"], [], 1⟩ [("desc", "D")] [("name", "A")]).2.2) :=
  (C9_amended_get_or_create_idempotent ⟨["name", "desc"], [], 1⟩ [("desc", "D")]
    [("name", "A")] ⟨0, []⟩ (by decide) (by decide)).2 rfl

/-- C10: the services' cache wrappers test the cached value for
truthiness rather than presence: whenever a valid cache entry holds a
falsy value (empty list, empty dict, ...), `_cached_simple` invokes the
fetch function again (whatever its outcome) and re-stores its value when
it returns one, `_cached_entity` re-invokes the fetch function, and
`MineService.get_mine` re-invokes the repository fetch. -/
theorem C10_falsy_cache_values_refetched (st : SvcState) (now : Int)
    (key msg notFoundMsg errorCode : String) (ttl : Int)
    (fetched : Except RepoError PyVal) (d v : PyVal)
    (id : Nat) (hget : svc_cache_get st.cache now key = some v)
    (hfalsy : v.truthy = false) :
    (cached_simple st now key msg ttl fetched).2 = true ∧
    (cached_simple st now key msg ttl (.ok d)).1 =
      .ok (ok_env msg d [],
        { st with cache := svc_cache_set st.cache now key d ttl }) ∧
    (cached_entity st now key notFoundMsg errorCode ttl fetched).2 = true ∧
    (key = "mine:" ++ toString id → (get_mine st now id).2 = true) := by
  refine ⟨?_, ?_, ?_, ?_⟩
  · rcases fetched with e | d2 <;> simp [cached_simple, hget, hfalsy]
  · simp [cached_simple, hget, hfalsy]
  · rcases fetched with e | d2
    · simp [cached_entity, hget, hfalsy]
    · cases d2 <;> simp [cached_entity, hget, hfalsy]
  · intro hkey
    subst hkey
    rcases hf : st.store.fault with _ | _
    · rcases hm : mine_get_by_id st.store id with _ | m <;>
        simp [get_mine, hget, hfalsy, hf, hm]
    · simp [get_mine, hget, hfalsy, hf]

/-- Witness for C10 at a concrete input: an empty subtype list cached at
time 0 with TTL 600 is a valid entry at time 10, yet `_cached_simple`
re-invokes the fetch function and re-stores its result. -/
theorem C10_witness :
    (cached_simple
      ⟨⟨[], [], [], 1, false⟩, ⟨[("subtypes_select", ⟨.vList [], 0, 600⟩)]⟩⟩
      10 "subtypes_select" "Sub-types for select" 600 (.ok (.vList []))).2 = true :=
  (C10_falsy_cache_values_refetched
    ⟨⟨[], [], [], 1, false⟩, ⟨[("subtypes_select", ⟨.vList [], 0, 600⟩)]⟩⟩
    10 "subtypes_select" "Sub-types for select" "x" "y" 600 (.ok (.vList []))
    (.vList []) (.vList []) 0 rfl rfl).1
